import Mathlib

/-!
Shallow embedding of the pod-limit-checker analysis engine
(package `analyzer`: `AnalyzePods`, `generateSuggestions`,
`calculateRiskLevel`, `generateSpecificRecommendations`,
`generateExampleYAML`), together with spec-side definitions used for
refinement statements.

Embedding conventions:
* A `resource.Quantity` is embedded by the integer value the Go code
  extracts from it: CPU quantities by `MilliValue()` (milli-cores),
  memory quantities by `Value()` (bytes).  Go's `/` on `int64` truncates
  toward zero, which is `Int.tdiv` here.
* Go `float64` arithmetic on usage ratios (`float64(a)/float64(b)*100`,
  compared against `threshold*100`, `30`, `50`, `0.9`) is embedded as
  exact rational arithmetic over `ℚ`.
* `fmt.Sprintf` advisory strings are embedded as the `Suggestion`
  datatype; a formatted percentage is carried as the exact rational.
* A Go string field whose zero value `""` means "not set" (the four
  recommendation fields and `ExampleYAML`) is embedded as `Option String`.
* `AnalyzePods` calls `time.Since(pod.CreationTimestamp.Time)`, reading
  the wall clock; the clock is made an explicit `now` parameter (seconds),
  and creation timestamps are seconds, so the elapsed duration in whole
  seconds is `now - creationTimestamp`.
-/

/-- Embedding of a `v1.ResourceList` (map from resource name to quantity)
as seen by the analyzer: the optional CPU entry (its `MilliValue()`), the
optional Memory entry (its `Value()` in bytes), and the number of entries
under any other key (the analyzer only tests the map for emptiness and
looks up the CPU and Memory keys). -/
structure ResourceList where
  cpu : Option Int
  memory : Option Int
  others : Nat
deriving DecidableEq

/-- Go `len(resourceList) == 0`. -/
def ResourceList.isEmpty (r : ResourceList) : Bool :=
  r.cpu.isNone && r.memory.isNone && r.others == 0

/-- Embedding of the parts of `v1.Container` the analyzer reads:
`Name`, `Resources.Limits`, `Resources.Requests`. -/
structure Container where
  name : String
  limits : ResourceList
  requests : ResourceList
deriving DecidableEq

/-- Embedding of the parts of `v1.Pod` the analyzer reads: `Namespace`,
`Name`, `CreationTimestamp` (seconds), `Spec.Containers`. -/
structure Pod where
  ns : String
  name : String
  creationTimestamp : Int
  containers : List Container
deriving DecidableEq

/-- Embedding of one entry of `PodMetrics.Containers`: the container name
and its usage quantities (`Usage.Cpu().MilliValue()` in milli-cores,
`Usage.Memory().Value()` in bytes). -/
structure ContainerMetrics where
  name : String
  usageCPU : Int
  usageMemory : Int
deriving DecidableEq

/-- Embedding of `metricsv1beta1.PodMetrics`: namespace, pod name, and
per-container usage entries. -/
structure PodMetrics where
  ns : String
  name : String
  containers : List ContainerMetrics
deriving DecidableEq

/-- Embedding of `analyzer.ResourceUsage`: two quantity pointers, either
of which may be nil. -/
structure ResourceUsage where
  cpu : Option Int
  memory : Option Int
deriving DecidableEq

/-- The advisory strings produced by `generateSuggestions`, abstracted to
a datatype; a constructor application corresponds to the `fmt.Sprintf`
output with the carried percentage formatted into it. -/
inductive Suggestion where
  | noLimits
  | noRequests
  | increaseCPU (pct : ℚ)
  | decreaseCPU (pct : ℚ)
  | increaseMemory (pct : ℚ)
  | decreaseMemory (pct : ℚ)
  | setLimitsFallback
deriving DecidableEq

/-- The four recommendation string fields set by
`generateSpecificRecommendations` (`none` embeds the Go zero value `""`,
meaning the field was not set). -/
structure Recommendations where
  cpuLimit : Option String
  cpuRequest : Option String
  memoryLimit : Option String
  memoryRequest : Option String
deriving DecidableEq

/-- Embedding of `analyzer.PodAnalysis`. -/
structure PodAnalysis where
  ns : String
  podName : String
  containerName : String
  hasLimits : Bool
  hasRequests : Bool
  currentLimits : ResourceList
  currentUsage : Option ResourceUsage
  suggestions : List Suggestion
  riskLevel : String
  age : String
  recommendedCPULimit : Option String
  recommendedCPURequest : Option String
  recommendedMemoryLimit : Option String
  recommendedMemoryRequest : Option String
  exampleYAML : Option String
deriving DecidableEq

/-- Embedding of `calculateRiskLevel` (part_000 lines 243-270). -/
def calculateRiskLevel (container : Container) (usage : Option ResourceUsage) : String :=
  if container.limits.isEmpty then "HIGH"
  else if !container.limits.cpu.isSome || !container.limits.memory.isSome then "MEDIUM"
  else
    match usage with
    | some u =>
      match u.cpu, u.memory with
      | some cpuUsageMilli, some _ =>
        match container.limits.cpu with
        | some cpuLimitMilli =>
          if cpuLimitMilli > 0 ∧ (cpuUsageMilli : ℚ) / (cpuLimitMilli : ℚ) > 9/10 then
            "MEDIUM"
          else "LOW"
        | none => "LOW"
      | _, _ => "LOW"
    | none => "LOW"

/-- Embedding of `generateSuggestions` (part_000 lines 186-241). -/
def generateSuggestions (container : Container) (usage : Option ResourceUsage)
    (threshold : ℚ) : List Suggestion :=
  let s1 := if container.limits.isEmpty then [Suggestion.noLimits] else []
  let s2 := if container.requests.isEmpty then [Suggestion.noRequests] else []
  match usage with
  | some u =>
    match u.cpu, u.memory with
    | some cpuUsageMilli, some memUsageBytes =>
      let sc :=
        match container.limits.cpu with
        | some cpuLimitMilli =>
          if cpuLimitMilli > 0 then
            let usagePercent : ℚ := (cpuUsageMilli : ℚ) / (cpuLimitMilli : ℚ) * 100
            if usagePercent > threshold * 100 then [Suggestion.increaseCPU usagePercent]
            else if usagePercent < 30 then [Suggestion.decreaseCPU usagePercent]
            else []
          else []
        | none => []
      let sm :=
        match container.limits.memory with
        | some memLimitBytes =>
          if memLimitBytes > 0 then
            let usagePercent : ℚ := (memUsageBytes : ℚ) / (memLimitBytes : ℚ) * 100
            if usagePercent > threshold * 100 then [Suggestion.increaseMemory usagePercent]
            else if usagePercent < 50 then [Suggestion.decreaseMemory usagePercent]
            else []
          else []
        | none => []
      s1 ++ s2 ++ sc ++ sm
    | _, _ =>
      s1 ++ s2 ++ (if container.limits.isEmpty then [Suggestion.setLimitsFallback] else [])
  | none =>
    s1 ++ s2 ++ (if container.limits.isEmpty then [Suggestion.setLimitsFallback] else [])

/-- Embedding of `generateSpecificRecommendations` (part_000 lines
127-165), returning the four fields it sets on the analysis. -/
def generateSpecificRecommendations (usage : Option ResourceUsage) : Recommendations :=
  match usage with
  | some u =>
    match u.cpu, u.memory with
    | some cpuUsageMilli, some memUsageBytes =>
      let recommendedCPULimit := Int.tdiv (cpuUsageMilli * 5) 2
      let recommendedCPULimit := if recommendedCPULimit < 100 then 100 else recommendedCPULimit
      let recommendedCPURequest := Int.tdiv (cpuUsageMilli * 6) 5
      let recommendedCPURequest := if recommendedCPURequest < 50 then 50 else recommendedCPURequest
      let recommendedMemLimit := Int.tdiv (memUsageBytes * 5) 2
      let recommendedMemLimit :=
        if recommendedMemLimit < 128 * 1024 * 1024 then 128 * 1024 * 1024 else recommendedMemLimit
      let recommendedMemRequest := Int.tdiv (memUsageBytes * 6) 5
      let recommendedMemRequest :=
        if recommendedMemRequest < 64 * 1024 * 1024 then 64 * 1024 * 1024 else recommendedMemRequest
      { cpuLimit := some (toString recommendedCPULimit ++ "m")
        cpuRequest := some (toString recommendedCPURequest ++ "m")
        memoryLimit := some (toString (Int.tdiv recommendedMemLimit (1024 * 1024)) ++ "Mi")
        memoryRequest := some (toString (Int.tdiv recommendedMemRequest (1024 * 1024)) ++ "Mi") }
    | _, _ => ⟨none, none, none, none⟩
  | none => ⟨none, none, none, none⟩

/-- Embedding of `generateExampleYAML` (part_000 lines 167-184).  It
reads `analysis.CurrentUsage` and the four recommendation fields. -/
def generateExampleYAML (usage : Option ResourceUsage) (recs : Recommendations) : String :=
  match usage with
  | none => ""
  | some _ =>
    "        resources:\n          limits:\n            cpu: \"" ++ recs.cpuLimit.getD "" ++
    "\"\n            memory: \"" ++ recs.memoryLimit.getD "" ++
    "\"\n          requests:\n            cpu: \"" ++ recs.cpuRequest.getD "" ++
    "\"\n            memory: \"" ++ recs.memoryRequest.getD "" ++ "\""

/-- Embedding of `k8s.io/apimachinery/pkg/util/duration.ShortHumanDuration`
(a library dependency of `AnalyzePods`, used only for the `Age` field) at
whole-second resolution. -/
def shortHumanDuration (seconds : Int) : String :=
  if seconds < -1 then "<invalid>"
  else if seconds < 0 then "0s"
  else if seconds < 60 then toString seconds ++ "s"
  else if Int.tdiv seconds 60 < 60 then toString (Int.tdiv seconds 60) ++ "m"
  else if Int.tdiv seconds 3600 < 24 then toString (Int.tdiv seconds 3600) ++ "h"
  else if Int.tdiv seconds 3600 < 24 * 365 then toString (Int.tdiv (Int.tdiv seconds 3600) 24) ++ "d"
  else toString (Int.tdiv (Int.tdiv seconds 3600) (24 * 365)) ++ "y"

/-- The metrics map built at the top of `AnalyzePods` (lines 70-74):
entries keyed by `fmt.Sprintf("%s/%s", pm.Namespace, pm.Name)`. -/
def buildMetricsMap (podMetrics : List PodMetrics) : List (String × PodMetrics) :=
  podMetrics.map (fun pm => (pm.ns ++ "/" ++ pm.name, pm))

/-- Go map lookup on a list of inserted pairs: a later insertion with the
same key overwrites an earlier one. -/
def mapLookup (m : List (String × PodMetrics)) (k : String) : Option PodMetrics :=
  match m with
  | [] => none
  | (k', v) :: rest =>
    match mapLookup rest k with
    | some v' => some v'
    | none => if k' == k then some v else none

/-- The usage lookup of `AnalyzePods` (lines 96-106): find the pod's
metrics by the `namespace/name` key, then the first container entry with
a matching name. -/
def lookupUsage (metricsMap : List (String × PodMetrics)) (pod : Pod)
    (container : Container) : Option ResourceUsage :=
  match mapLookup metricsMap (pod.ns ++ "/" ++ pod.name) with
  | some pm =>
    match pm.containers.find? (fun cm => cm.name == container.name) with
    | some cm => some { cpu := some cm.usageCPU, memory := some cm.usageMemory }
    | none => none
  | none => none

/-- The body of the inner loop of `AnalyzePods` (lines 79-121) for one
container of one pod. -/
def analyzeContainer (now : Int) (metricsMap : List (String × PodMetrics))
    (threshold : ℚ) (pod : Pod) (container : Container) : PodAnalysis :=
  let podAge := shortHumanDuration (now - pod.creationTimestamp)
  let hasLimits := !container.limits.isEmpty
  let hasRequests := !container.requests.isEmpty
  let currentUsage := lookupUsage metricsMap pod container
  let recs := generateSpecificRecommendations currentUsage
  { ns := pod.ns
    podName := pod.name
    containerName := container.name
    hasLimits := hasLimits
    hasRequests := hasRequests
    currentLimits := container.limits
    currentUsage := currentUsage
    suggestions := generateSuggestions container currentUsage threshold
    riskLevel := calculateRiskLevel container currentUsage
    age := podAge
    recommendedCPULimit := recs.cpuLimit
    recommendedCPURequest := recs.cpuRequest
    recommendedMemoryLimit := recs.memoryLimit
    recommendedMemoryRequest := recs.memoryRequest
    exampleYAML :=
      if !hasLimits && currentUsage.isSome then some (generateExampleYAML currentUsage recs)
      else none }

/-- Embedding of `AnalyzePods` (part_000 lines 67-125).  The wall clock
read by `time.Since` is the explicit `now` parameter. -/
def AnalyzePods (pods : List Pod) (podMetrics : List PodMetrics) (threshold : ℚ)
    (now : Int) : List PodAnalysis :=
  let metricsMap := buildMetricsMap podMetrics
  pods.flatMap (fun pod =>
    pod.containers.map (fun container =>
      analyzeContainer now metricsMap threshold pod container))

/-- Spec-side definition, following §4.2 of the spec word for word: HIGH
if declaredLimits is empty; else MEDIUM if the limits map is missing the
CPU entry or the Memory entry; else MEDIUM if a usage sample exists and
CPU usage ÷ CPU limit > 0.9; else LOW.  Division is total rational
division (so a zero CPU limit yields ratio 0). -/
def riskTierSpec (limits : ResourceList) (usage : Option ResourceUsage) : String :=
  if limits.isEmpty then "HIGH"
  else if limits.cpu.isNone || limits.memory.isNone then "MEDIUM"
  else
    match usage, limits.cpu with
    | some u, some cpuLimitMilli =>
      match u.cpu, u.memory with
      | some cpuUsageMilli, some _ =>
        if (cpuUsageMilli : ℚ) / (cpuLimitMilli : ℚ) > 9/10 then "MEDIUM" else "LOW"
      | _, _ => "LOW"
    | _, _ => "LOW"

/-- Spec-side definition, following §4.3 of the spec word for word.  A
usage sample in the spec's data model is a pair (cpuUsage in milli-cores,
memoryUsage in bytes); both components are always present. -/
def suggestionsSpec (limits requests : ResourceList) (sample : Option (Int × Int))
    (threshold : ℚ) : List Suggestion :=
  (if limits.isEmpty then [Suggestion.noLimits] else []) ++
  (if requests.isEmpty then [Suggestion.noRequests] else []) ++
  (match sample, limits.cpu with
   | some s, some cpuLimitMilli =>
     if cpuLimitMilli > 0 then
       let usagePercent : ℚ := (s.1 : ℚ) / (cpuLimitMilli : ℚ) * 100
       if usagePercent > threshold * 100 then [Suggestion.increaseCPU usagePercent]
       else if usagePercent < 30 then [Suggestion.decreaseCPU usagePercent]
       else []
     else []
   | _, _ => []) ++
  (match sample, limits.memory with
   | some s, some memLimitBytes =>
     if memLimitBytes > 0 then
       let usagePercent : ℚ := (s.2 : ℚ) / (memLimitBytes : ℚ) * 100
       if usagePercent > threshold * 100 then [Suggestion.increaseMemory usagePercent]
       else if usagePercent < 50 then [Suggestion.decreaseMemory usagePercent]
       else []
     else []
   | _, _ => []) ++
  (if sample.isNone && limits.isEmpty then [Suggestion.setLimitsFallback] else [])

/-- Spec-side definition, following §4.4 of the spec: recommendedMemoryLimit
= max(memoryUsage × 5 ÷ 2, 128 MiB), reported in whole mebibytes
(integer division, truncating any fractional MiB); the spec's arithmetic
is integer-based on bytes. -/
def recMemoryLimitMiBSpec (memUsageBytes : Int) : Int :=
  Int.tdiv (max (Int.tdiv (memUsageBytes * 5) 2) (128 * 1024 * 1024)) (1024 * 1024)

/-- Spec-side definition, following §4.4 of the spec: recommendedMemoryRequest
= max(memoryUsage × 6 ÷ 5, 64 MiB), reported in whole mebibytes. -/
def recMemoryRequestMiBSpec (memUsageBytes : Int) : Int :=
  Int.tdiv (max (Int.tdiv (memUsageBytes * 6) 5) (64 * 1024 * 1024)) (1024 * 1024)

/-- Spec-side definition, following §4.1 of the spec: exact lookup of the
usage sample by the (namespace, workload, container) triple. -/
def joinLookupSpec (podMetrics : List PodMetrics) (ns podName containerName : String) :
    Option ResourceUsage :=
  match podMetrics.find? (fun pm => pm.ns == ns && pm.name == podName) with
  | some pm =>
    (pm.containers.find? (fun cm => cm.name == containerName)).map
      (fun cm => { cpu := some cm.usageCPU, memory := some cm.usageMemory })
  | none => none

/-- Replace the Age field by a fixed string, to compare two engine runs on
all other fields. -/
def eraseAge (a : PodAnalysis) : PodAnalysis := { a with age := "" }

/-- The string contains no `/` character (Kubernetes object names never
do; the engine's metrics-map key concatenates names with `/`). -/
def noSlash (s : String) : Prop := '/' ∉ s.data

instance (s : String) : Decidable (noSlash s) :=
  inferInstanceAs (Decidable ('/' ∉ s.data))

/-- Scenario B container (spec §8): CPU limit 200m, memory limit 256Mi,
no requests. -/
def scenarioBContainer : Container :=
  { name := "app"
    limits := { cpu := some 200, memory := some (256 * 1024 * 1024), others := 0 }
    requests := { cpu := none, memory := none, others := 0 } }

/-- A pod holding the Scenario B container. -/
def scenarioBPod : Pod :=
  { ns := "default", name := "web", creationTimestamp := 0
    containers := [scenarioBContainer] }

/-- Scenario B usage sample: cpu 50m, memory 64Mi. -/
def scenarioBMetrics : PodMetrics :=
  { ns := "default", name := "web"
    containers := [{ name := "app", usageCPU := 50, usageMemory := 64 * 1024 * 1024 }] }

/-- A pod with one unlimited container, used to exhibit the engine's
dependence on the wall clock. -/
def clockPod : Pod :=
  { ns := "default", name := "web", creationTimestamp := 0
    containers := [{ name := "app"
                     limits := { cpu := none, memory := none, others := 0 }
                     requests := { cpu := none, memory := none, others := 0 } }] }

/-- A pod whose name contains the `/` separator. -/
def slashPod : Pod :=
  { ns := "a", name := "b/c", creationTimestamp := 0
    containers := [{ name := "x"
                     limits := { cpu := none, memory := none, others := 0 }
                     requests := { cpu := none, memory := none, others := 0 } }] }

/-- A metrics entry for a different pod, namespace `a/b` and name `c`,
whose concatenated key collides with `slashPod`'s. -/
def slashMetrics : PodMetrics :=
  { ns := "a/b", name := "c"
    containers := [{ name := "x", usageCPU := 999, usageMemory := 888 }] }

/-- Helper: the clamp `if a < b then b else a` used by
`generateSpecificRecommendations` is `max a b`. -/
theorem clamp_eq_max (a b : ℤ) : (if a < b then b else a) = max a b := by
  split <;> omega

/-- Helper: truncating division of a nonpositive by a nonnegative integer
is nonpositive. -/
theorem tdiv_nonpos_of_nonpos_of_nonneg {a b : ℤ} (ha : a ≤ 0) (hb : 0 ≤ b) :
    Int.tdiv a b ≤ 0 := by
  have h := Int.tdiv_nonneg (a := -a) (b := b) (by omega) hb
  rw [Int.neg_tdiv] at h
  omega

/-- C1: for every container (with nonnegative declared CPU limit quantity,
as all Kubernetes quantities are) and every usage value, the riskTier
returned by `calculateRiskLevel` equals the spec's ordered classification
`riskTierSpec`, which is a pure function reading only declaredLimits and
currentUsage (in particular it does not depend on the container name or
the declared requests). -/
theorem c1_riskLevel_eq_spec (container : Container) (usage : Option ResourceUsage)
    (h : ∀ cl, container.limits.cpu = some cl → 0 ≤ cl) :
    calculateRiskLevel container usage = riskTierSpec container.limits usage := by
  obtain ⟨nm, limits, requests⟩ := container
  obtain ⟨cl?, ml?, others⟩ := limits
  cases cl? with
  | none =>
    cases usage with
    | none => simp [calculateRiskLevel, riskTierSpec]
    | some u => cases u.cpu <;> cases u.memory <;> simp [calculateRiskLevel, riskTierSpec]
  | some cl =>
    cases ml? with
    | none =>
      cases usage with
      | none => simp [calculateRiskLevel, riskTierSpec]
      | some u => cases u.cpu <;> cases u.memory <;> simp [calculateRiskLevel, riskTierSpec]
    | some ml =>
      cases usage with
      | none => simp [calculateRiskLevel, riskTierSpec]
      | some u =>
      obtain ⟨cu?, mu?⟩ := u
      cases cu? with
      | none => simp [calculateRiskLevel, riskTierSpec]
      | some cu =>
        cases mu? with
        | none => simp [calculateRiskLevel, riskTierSpec]
        | some mu =>
          have hcl : 0 ≤ cl := h cl rfl
          rcases eq_or_lt_of_le hcl with heq | hpos
          · simp [calculateRiskLevel, riskTierSpec, ← heq, ResourceList.isEmpty]
            norm_num
          · simp [calculateRiskLevel, riskTierSpec, ResourceList.isEmpty, hpos]

/-- C1 witness: the theorem applied to the Scenario B container and usage. -/
theorem c1_riskLevel_eq_spec_witness :
    (∀ cl, scenarioBContainer.limits.cpu = some cl → 0 ≤ cl) ∧
    calculateRiskLevel scenarioBContainer (some ⟨some 50, some (64 * 1024 * 1024)⟩) =
      riskTierSpec scenarioBContainer.limits (some ⟨some 50, some (64 * 1024 * 1024)⟩) :=
  ⟨fun cl h => by injection h with h2; omega,
   c1_riskLevel_eq_spec scenarioBContainer (some ⟨some 50, some (64 * 1024 * 1024)⟩)
     (fun cl h => by injection h with h2; omega)⟩

/-- C3 counterexample: at cpuUsage = 41 milli-cores (which is ≥ 40) the
computed recommendedCPULimit is "102m", i.e. 102 milli-cores, but
41 × 2.5 = 102.5, so the claim's "equals cpuUsage × 2.5 milli-cores"
fails for odd usage values. -/
theorem c3_counterexample :
    (generateSpecificRecommendations (some ⟨some 41, some 0⟩)).cpuLimit = some "102m" ∧
    ¬ ((102 : ℚ) = (41 : ℚ) * 5 / 2) :=
  ⟨by decide, by norm_num⟩

/-- C3 (amended): for every usage sample, if cpuUsage ≤ 40 milli-cores the
recommendedCPULimit is exactly "100m"; if cpuUsage ≥ 40 milli-cores it is
⌊cpuUsage × 5 / 2⌋ milli-cores (Go's truncating integer division), which
equals cpuUsage × 2.5 exactly when cpuUsage is even and falls half a
milli-core short when cpuUsage is odd. -/
theorem c3_cpuLimit_floor (cpuUsageMilli memUsageBytes : Int) :
    (cpuUsageMilli ≤ 40 →
      (generateSpecificRecommendations
        (some ⟨some cpuUsageMilli, some memUsageBytes⟩)).cpuLimit = some "100m") ∧
    (40 ≤ cpuUsageMilli →
      (generateSpecificRecommendations
        (some ⟨some cpuUsageMilli, some memUsageBytes⟩)).cpuLimit =
        some (toString (Int.tdiv (cpuUsageMilli * 5) 2) ++ "m") ∧
      ((Int.tdiv (cpuUsageMilli * 5) 2 : ℚ) =
        (cpuUsageMilli : ℚ) * 5 / 2 - (if cpuUsageMilli % 2 = 0 then 0 else 1/2))) := by
  constructor
  · intro hle
    have hle' : Int.tdiv (cpuUsageMilli * 5) 2 ≤ 100 := by
      rcases le_or_lt 0 cpuUsageMilli with h0 | h0
      · rw [Int.tdiv_eq_ediv (by positivity) (by norm_num)]
        omega
      · have h1 : cpuUsageMilli * 5 ≤ 0 := by omega
        have := tdiv_nonpos_of_nonpos_of_nonneg h1 (by norm_num : (0:ℤ) ≤ 2)
        omega
    have hif : (if Int.tdiv (cpuUsageMilli * 5) 2 < 100 then (100 : ℤ)
        else Int.tdiv (cpuUsageMilli * 5) 2) = 100 := by
      split <;> omega
    simp only [generateSpecificRecommendations, hif]
    decide
  · intro hge
    have h0 : (0:ℤ) ≤ cpuUsageMilli * 5 := by omega
    have hne : ¬ (Int.tdiv (cpuUsageMilli * 5) 2 < 100) := by
      rw [Int.tdiv_eq_ediv h0 (by norm_num)]
      omega
    refine ⟨by simp only [generateSpecificRecommendations, if_neg hne], ?_⟩
    rw [Int.tdiv_eq_ediv h0 (by norm_num)]
    rcases Int.even_or_odd cpuUsageMilli with ⟨k, hk⟩ | ⟨k, hk⟩
    · subst hk
      have h2 : (k + k) % 2 = 0 := by omega
      have hv : (k + k) * 5 / 2 = 5 * k := by omega
      rw [hv]
      simp only [h2, if_pos]
      push_cast
      ring
    · subst hk
      have h2 : ¬ ((2 * k + 1) % 2 = 0) := by omega
      have hv : (2 * k + 1) * 5 / 2 = 5 * k + 2 := by omega
      rw [hv]
      rw [if_neg h2]
      push_cast
      ring

/-- C3 witness: the theorem applied at cpuUsage = 40, where both bounds
hold, the floor still dominates, and 40 × 2.5 = 100 exactly. -/
theorem c3_cpuLimit_floor_witness :
    ((40 : ℤ) ≤ 40 →
      (generateSpecificRecommendations (some ⟨some 40, some 0⟩)).cpuLimit = some "100m") ∧
    ((40 : ℤ) ≤ 40 →
      (generateSpecificRecommendations (some ⟨some 40, some 0⟩)).cpuLimit =
        some (toString (Int.tdiv (40 * 5) 2) ++ "m") ∧
      ((Int.tdiv ((40 : ℤ) * 5) 2 : ℚ) =
        ((40 : ℤ) : ℚ) * 5 / 2 - (if (40 : ℤ) % 2 = 0 then 0 else 1/2))) :=
  ⟨(c3_cpuLimit_floor 40 0).1, (c3_cpuLimit_floor 40 0).2⟩

/-- C4: for every usage sample the reported memory limit and request
equal the spec formulas max(memoryUsage × 5 ÷ 2, 128 MiB) and
max(memoryUsage × 6 ÷ 5, 64 MiB), each reported in whole mebibytes by
truncating integer division; and with no usage sample all four
recommendation fields are absent. -/
theorem c4_memory_recommendations (cpuUsageMilli memUsageBytes : Int) :
    ((generateSpecificRecommendations
        (some ⟨some cpuUsageMilli, some memUsageBytes⟩)).memoryLimit =
      some (toString (recMemoryLimitMiBSpec memUsageBytes) ++ "Mi")) ∧
    ((generateSpecificRecommendations
        (some ⟨some cpuUsageMilli, some memUsageBytes⟩)).memoryRequest =
      some (toString (recMemoryRequestMiBSpec memUsageBytes) ++ "Mi")) ∧
    generateSpecificRecommendations none =
      ⟨none, none, none, none⟩ := by
  refine ⟨?_, ?_, rfl⟩
  · simp only [generateSpecificRecommendations, recMemoryLimitMiBSpec, clamp_eq_max]
  · simp only [generateSpecificRecommendations, recMemoryRequestMiBSpec, clamp_eq_max]

/-- C2 counterexample: on the Scenario B input (CPU limit 200m, memory
limit 256Mi, no requests, usage cpu = 50m and memory = 64Mi, threshold
0.8) the engine's riskTier is not MEDIUM: `calculateRiskLevel` never
reads the requests, both limit entries are present, and 50/200 ≤ 0.9, so
the tier is LOW. -/
theorem c2_counterexample :
    (AnalyzePods [scenarioBPod] [scenarioBMetrics] (4/5) 0).map
      (fun r => r.riskLevel) ≠ ["MEDIUM"] := by
  norm_num [AnalyzePods, scenarioBPod, analyzeContainer, lookupUsage, buildMetricsMap,
    mapLookup, scenarioBMetrics, calculateRiskLevel, scenarioBContainer,
    ResourceList.isEmpty]
  decide

/-- C2 (amended): on the Scenario B input the engine produces
hasLimits = true and riskTier = LOW (the risk classification ignores the
missing requests; both limit entries are present and the CPU ratio 25% is
below 90%), and it emits the "decrease CPU limit" suggestion carrying
usagePercent = 25, since 25 < 30. -/
theorem c2_scenarioB :
    (AnalyzePods [scenarioBPod] [scenarioBMetrics] (4/5) 0).map
      (fun r => (r.hasLimits, r.riskLevel)) = [(true, "LOW")] ∧
    Suggestion.decreaseCPU 25 ∈
      (AnalyzePods [scenarioBPod] [scenarioBMetrics] (4/5) 0).flatMap
        (fun r => r.suggestions) := by
  constructor
  · norm_num [AnalyzePods, scenarioBPod, analyzeContainer, lookupUsage, buildMetricsMap,
      mapLookup, scenarioBMetrics, calculateRiskLevel, scenarioBContainer,
      ResourceList.isEmpty]
    decide
  · norm_num [AnalyzePods, scenarioBPod, analyzeContainer, lookupUsage, buildMetricsMap,
      mapLookup, scenarioBMetrics, generateSuggestions, scenarioBContainer,
      ResourceList.isEmpty]

/-- C5: for every container and every threshold in (0,1], the suggestion
list produced by `generateSuggestions` is exactly the spec's fixed-order
sequence `suggestionsSpec`: the missing-limits entry, the
missing-requests entry, the CPU usage advisory (increase above
threshold×100, else decrease below 30), the memory advisory (decrease
trigger 50), and the generic fallback exactly when no usage sample
exists and limits are empty. -/
theorem c5_suggestions_eq_spec (container : Container) (sample : Option (Int × Int))
    (threshold : ℚ) (h0 : 0 < threshold) (h1 : threshold ≤ 1) :
    generateSuggestions container
        (sample.map (fun p => ⟨some p.1, some p.2⟩)) threshold =
      suggestionsSpec container.limits container.requests sample threshold := by
  obtain ⟨nm, limits, requests⟩ := container
  cases sample with
  | none => simp [generateSuggestions, suggestionsSpec]
  | some p =>
    obtain ⟨cu, mu⟩ := p
    obtain ⟨cl?, ml?, others⟩ := limits
    cases cl? <;> cases ml? <;>
      simp [generateSuggestions, suggestionsSpec]

/-- C5 witness: the theorem applied to the Scenario B container, its
usage sample, and threshold 1. -/
theorem c5_suggestions_eq_spec_witness :
    (0 : ℚ) < 1 ∧ (1 : ℚ) ≤ 1 ∧
    generateSuggestions scenarioBContainer
        ((some (50, 64 * 1024 * 1024)).map (fun p => ⟨some p.1, some p.2⟩)) 1 =
      suggestionsSpec scenarioBContainer.limits scenarioBContainer.requests
        (some (50, 64 * 1024 * 1024)) 1 :=
  ⟨one_pos, le_refl 1,
   c5_suggestions_eq_spec scenarioBContainer (some (50, 64 * 1024 * 1024)) 1 one_pos
     (le_refl 1)⟩

/-- C6 counterexample: the engine run twice on the identical snapshot
(one unlimited pod, no metrics, threshold 1) at two clock instants 60
seconds apart yields different outputs: the Age field changes from "0s"
to "1m", because `AnalyzePods` reads the wall clock via `time.Since`. -/
theorem c6_counterexample :
    AnalyzePods [clockPod] [] 1 0 ≠ AnalyzePods [clockPod] [] 1 60 := by decide

/-- C6 (amended): the engine is deterministic given the clock — for one
fixed invocation instant the output is a pure function of (specs, usage,
threshold) — and two runs at different instants agree on every field of
every result except Age. -/
theorem c6_deterministic_except_age (pods : List Pod) (podMetrics : List PodMetrics)
    (threshold : ℚ) (now1 now2 : Int) :
    (AnalyzePods pods podMetrics threshold now1).map eraseAge =
      (AnalyzePods pods podMetrics threshold now2).map eraseAge := by
  simp only [AnalyzePods]
  induction pods with
  | nil => rfl
  | cons p ps ih =>
    simp only [List.flatMap_cons, List.map_append, ih]
    congr 1
    rw [List.map_map, List.map_map]
    apply List.map_congr_left
    intro c _
    rfl

/-- C7: the engine is total and produces exactly one AnalysisResult per
input container, in input order: the identity triple of the output
sequence is exactly the flattened identity sequence of the input pods'
containers, and the output length is the total container count. -/
theorem c7_output_order (pods : List Pod) (podMetrics : List PodMetrics)
    (threshold : ℚ) (now : Int) :
    (AnalyzePods pods podMetrics threshold now).map
        (fun r => (r.ns, r.podName, r.containerName)) =
      pods.flatMap (fun p => p.containers.map (fun c => (p.ns, p.name, c.name))) ∧
    (AnalyzePods pods podMetrics threshold now).length =
      (pods.map (fun p => p.containers.length)).sum := by
  constructor
  · simp only [AnalyzePods]
    induction pods with
    | nil => rfl
    | cons p ps ih =>
      simp only [List.flatMap_cons, List.map_append, ih]
      congr 1
      rw [List.map_map]
      apply List.map_congr_left
      intro c _
      rfl
  · simp only [AnalyzePods, List.length_flatMap]
    congr 1
    apply List.map_congr_left
    intro p _
    simp

/-- Helper: the usage attached by the engine's join is either absent or a
sample with both quantities present. -/
theorem lookupUsage_shape (mm : List (String × PodMetrics)) (p : Pod) (c : Container) :
    lookupUsage mm p c = none ∨
    ∃ a b, lookupUsage mm p c = some ⟨some a, some b⟩ := by
  rcases hm : mapLookup mm (p.ns ++ "/" ++ p.name) with _ | pm
  · exact Or.inl (by simp [lookupUsage, hm])
  · rcases hf : pm.containers.find? (fun cm => cm.name == c.name) with _ | cm
    · exact Or.inl (by simp [lookupUsage, hm, hf])
    · exact Or.inr ⟨cm.usageCPU, cm.usageMemory, by simp [lookupUsage, hm, hf]⟩

/-- C9: in every result the engine produces, the four recommendation
fields are populated exactly when a usage sample was attached (never
partially), and the example snippet is populated exactly when a usage
sample was attached and the container declared no limits. -/
theorem c9_gating (pods : List Pod) (podMetrics : List PodMetrics)
    (threshold : ℚ) (now : Int) :
    (AnalyzePods pods podMetrics threshold now).Forall (fun r =>
      r.recommendedCPULimit.isSome = r.currentUsage.isSome ∧
      r.recommendedCPURequest.isSome = r.currentUsage.isSome ∧
      r.recommendedMemoryLimit.isSome = r.currentUsage.isSome ∧
      r.recommendedMemoryRequest.isSome = r.currentUsage.isSome ∧
      r.exampleYAML.isSome = (r.currentUsage.isSome && !r.hasLimits)) := by
  rw [List.forall_iff_forall_mem]
  intro r hr
  simp only [AnalyzePods] at hr
  obtain ⟨p, hp, hr2⟩ := List.mem_flatMap.mp hr
  obtain ⟨c, hc, rfl⟩ := List.mem_map.mp hr2
  rcases lookupUsage_shape (buildMetricsMap podMetrics) p c with h | ⟨a, b, h⟩ <;>
    cases hL : c.limits.isEmpty <;>
    simp [analyzeContainer, h, hL, generateSpecificRecommendations]

/-- C10: a declared-but-zero CPU limit never reaches the usage-percent
division: no CPU increase/decrease advisory is emitted for it, and (when
the Memory entry is also present) the 0.9 tightness rule cannot fire, so
the risk tier is LOW no matter the usage; symmetrically, a zero memory
limit produces no memory advisory. -/
theorem c10_zero_limit_guard (nm : String) (limits requests : ResourceList)
    (usage : Option ResourceUsage) (threshold : ℚ) :
    (limits.cpu = some 0 →
      (∀ p, Suggestion.increaseCPU p ∉
          generateSuggestions ⟨nm, limits, requests⟩ usage threshold ∧
        Suggestion.decreaseCPU p ∉
          generateSuggestions ⟨nm, limits, requests⟩ usage threshold) ∧
      (limits.memory.isSome = true →
        calculateRiskLevel ⟨nm, limits, requests⟩ usage = "LOW")) ∧
    (limits.memory = some 0 →
      ∀ p, Suggestion.increaseMemory p ∉
          generateSuggestions ⟨nm, limits, requests⟩ usage threshold ∧
        Suggestion.decreaseMemory p ∉
          generateSuggestions ⟨nm, limits, requests⟩ usage threshold) := by
  obtain ⟨cl?, ml?, others⟩ := limits
  refine ⟨fun hc => ⟨fun p => ?_, fun hm => ?_⟩, fun hm2 => fun p => ?_⟩
  · subst hc
    rcases usage with _ | u
    · cases ml? <;> simp [generateSuggestions] <;> split_ifs <;> simp
    · obtain ⟨cu?, mu?⟩ := u
      rcases cu? with _ | cu <;> rcases mu? with _ | mu <;> cases ml? <;>
        simp [generateSuggestions] <;> split_ifs <;> simp
  · obtain ⟨ml, hml⟩ := Option.isSome_iff_exists.mp hm
    subst hc
    subst hml
    rcases usage with _ | u
    · simp [calculateRiskLevel, ResourceList.isEmpty]
    · obtain ⟨cu?, mu?⟩ := u
      rcases cu? with _ | cu <;> rcases mu? with _ | mu <;>
        simp [calculateRiskLevel, ResourceList.isEmpty]
  · subst hm2
    rcases usage with _ | u
    · cases cl? <;> simp [generateSuggestions] <;> split_ifs <;> simp
    · obtain ⟨cu?, mu?⟩ := u
      rcases cu? with _ | cu <;> rcases mu? with _ | mu <;> cases cl? <;>
        simp [generateSuggestions] <;> split_ifs <;> simp

/-- C10 witness: the theorem applied to a container with CPU and memory
limits both declared as zero and a usage sample far above them. -/
theorem c10_zero_limit_guard_witness :
    ((⟨some 0, some 0, 0⟩ : ResourceList).cpu = some 0) ∧
    (Suggestion.increaseCPU 100 ∉
        generateSuggestions ⟨"c", ⟨some 0, some 0, 0⟩, ⟨none, none, 0⟩⟩
          (some ⟨some 100, some 100⟩) 1 ∧
      Suggestion.decreaseCPU 100 ∉
        generateSuggestions ⟨"c", ⟨some 0, some 0, 0⟩, ⟨none, none, 0⟩⟩
          (some ⟨some 100, some 100⟩) 1) ∧
    calculateRiskLevel ⟨"c", ⟨some 0, some 0, 0⟩, ⟨none, none, 0⟩⟩
        (some ⟨some 100, some 100⟩) = "LOW" :=
  ⟨rfl,
   ((c10_zero_limit_guard "c" ⟨some 0, some 0, 0⟩ ⟨none, none, 0⟩
       (some ⟨some 100, some 100⟩) 1).1 rfl).1 100,
   ((c10_zero_limit_guard "c" ⟨some 0, some 0, 0⟩ ⟨none, none, 0⟩
       (some ⟨some 100, some 100⟩) 1).1 rfl).2 rfl⟩

/-- C8 counterexample: the engine's join keys pods by the concatenated
string `namespace/name`, so the pod (ns "a", name "b/c") is assigned the
usage sample of the metrics entry (ns "a/b", name "c") — a sample whose
(namespace, workload) identity does not match — instead of being left
without a sample. -/
theorem c8_counterexample :
    (AnalyzePods [slashPod] [slashMetrics] 1 0).map (fun r => r.currentUsage) =
      [some ⟨some 999, some 888⟩] ∧
    (slashPod.ns, slashPod.name) ≠ (slashMetrics.ns, slashMetrics.name) :=
  ⟨by decide, by decide⟩

/-- Helper: splitting a character list around a separator absent from
both prefixes is unambiguous. -/
theorem append_slash_inj {l1 l2 l3 l4 : List Char} (h1 : '/' ∉ l1) (h3 : '/' ∉ l3)
    (h : l1 ++ '/' :: l2 = l3 ++ '/' :: l4) : l1 = l3 ∧ l2 = l4 := by
  induction l1 generalizing l3 with
  | nil =>
    cases l3 with
    | nil =>
      simp only [List.nil_append] at h
      exact ⟨rfl, by injection h⟩
    | cons c t =>
      simp only [List.nil_append, List.cons_append] at h
      injection h with h1' h2'
      subst h1'
      exact absurd (List.mem_cons_self _ _) h3
  | cons a t ih =>
    cases l3 with
    | nil =>
      simp only [List.cons_append, List.nil_append] at h
      injection h with h1' h2'
      subst h1'
      exact absurd (List.mem_cons_self _ _) h1
    | cons c t3 =>
      simp only [List.cons_append] at h
      injection h with h1' h2'
      have hrec := ih (fun hm => h1 (List.mem_cons_of_mem _ hm))
        (fun hm => h3 (List.mem_cons_of_mem _ hm)) h2'
      exact ⟨by rw [h1', hrec.1], hrec.2⟩

/-- Helper: the `namespace/name` key is injective on slash-free names. -/
theorem key_inj {a b c d : String} (ha : noSlash a) (hc : noSlash c)
    (h : a ++ "/" ++ b = c ++ "/" ++ d) : a = c ∧ b = d := by
  have hd : (a ++ "/" ++ b).data = (c ++ "/" ++ d).data := congrArg String.data h
  simp only [String.data_append] at hd
  rw [List.append_assoc, List.append_assoc] at hd
  rw [List.singleton_append, List.singleton_append] at hd
  obtain ⟨e1, e2⟩ := append_slash_inj ha hc hd
  exact ⟨String.ext e1, String.ext e2⟩

/-- Helper: when the inserted keys are distinct, Go-map lookup (where a
later insertion overwrites an earlier one) agrees with first-match
lookup over the insertion sequence. -/
theorem mapLookup_of_nodup (ms : List PodMetrics) (k : String)
    (hnd : (ms.map (fun pm => pm.ns ++ "/" ++ pm.name)).Nodup) :
    mapLookup (buildMetricsMap ms) k =
      ms.find? (fun pm => pm.ns ++ "/" ++ pm.name == k) := by
  induction ms with
  | nil => rfl
  | cons pm rest ih =>
    rw [List.map_cons, List.nodup_cons] at hnd
    obtain ⟨hnotmem, hnd'⟩ := hnd
    rw [buildMetricsMap, List.map_cons]
    rw [mapLookup]
    rw [show (List.map (fun pm => (pm.ns ++ "/" ++ pm.name, pm)) rest) =
      buildMetricsMap rest from rfl]
    rw [ih hnd']
    rcases hfind : rest.find? (fun pm => pm.ns ++ "/" ++ pm.name == k) with _ | v
    · rw [List.find?_cons]
      rcases hb : (pm.ns ++ "/" ++ pm.name == k) with _ | _ <;> simp [hfind, hb]
    · have hk : v.ns ++ "/" ++ v.name = k := by
        have := List.find?_some hfind
        exact beq_iff_eq.mp this
      have hvmem : v ∈ rest := List.mem_of_find?_eq_some hfind
      have hb : (pm.ns ++ "/" ++ pm.name == k) = false := by
        rcases hb2 : (pm.ns ++ "/" ++ pm.name == k) with _ | _
        · rfl
        · have : pm.ns ++ "/" ++ pm.name = k := beq_iff_eq.mp hb2
          rw [← hk] at this
          exact absurd (this ▸ List.mem_map_of_mem _ hvmem) hnotmem
      rw [List.find?_cons]
      simp [hfind, hb]

/-- Helper: `find?` only depends on the predicate's values on the list. -/
theorem find?_congr_mem {α : Type} (l : List α) (p q : α → Bool)
    (h : ∀ a ∈ l, p a = q a) : l.find? p = l.find? q := by
  induction l with
  | nil => rfl
  | cons a t ih =>
    have ha := h a (List.mem_cons_self a t)
    rcases hq : q a with _ | _
    · simp only [List.find?_cons, ha, hq]
      exact ih (fun b hb => h b (List.mem_cons_of_mem _ hb))
    · simp only [List.find?_cons, ha, hq]

/-- Helper: on slash-free, key-distinct inputs the engine's string-keyed
usage lookup agrees with the spec's exact triple lookup. -/
theorem lookupUsage_eq_joinSpec (ms : List PodMetrics) (p : Pod) (c : Container)
    (hp : noSlash p.ns ∧ noSlash p.name)
    (hms : ∀ pm ∈ ms, noSlash pm.ns ∧ noSlash pm.name)
    (hnd : (ms.map (fun pm => (pm.ns, pm.name))).Nodup) :
    lookupUsage (buildMetricsMap ms) p c = joinLookupSpec ms p.ns p.name c.name := by
  have hkeys : (ms.map (fun pm => pm.ns ++ "/" ++ pm.name)).Nodup := by
    have hmm : ms.map (fun pm => pm.ns ++ "/" ++ pm.name) =
        (ms.map (fun pm => (pm.ns, pm.name))).map (fun q => q.1 ++ "/" ++ q.2) := by
      rw [List.map_map]
      rfl
    rw [hmm]
    apply List.Nodup.map_on ?_ hnd
    intro x hx y hy hxy
    obtain ⟨pmx, hpmx, hex⟩ := List.mem_map.mp hx
    obtain ⟨pmy, hpmy, hey⟩ := List.mem_map.mp hy
    have hxs : noSlash x.1 := by
      rw [← hex]
      exact (hms pmx hpmx).1
    have hys : noSlash y.1 := by
      rw [← hey]
      exact (hms pmy hpmy).1
    obtain ⟨e1, e2⟩ := key_inj hxs hys hxy
    exact Prod.ext e1 e2
  have h1 : mapLookup (buildMetricsMap ms) (p.ns ++ "/" ++ p.name) =
      ms.find? (fun pm => pm.ns == p.ns && pm.name == p.name) := by
    rw [mapLookup_of_nodup ms _ hkeys]
    apply find?_congr_mem
    intro pm hpm
    rw [Bool.eq_iff_iff]
    simp only [beq_iff_eq, Bool.and_eq_true]
    constructor
    · intro he
      exact key_inj (hms pm hpm).1 hp.1 he
    · intro ⟨e1, e2⟩
      rw [e1, e2]
  rw [lookupUsage, joinLookupSpec, h1]
  rcases hx : ms.find? (fun pm => pm.ns == p.ns && pm.name == p.name) with _ | pm
  · simp [hx]
  · rcases hf : pm.containers.find? (fun cm => cm.name == c.name) with _ | cm
    · simp [hx, hf]
    · simp [hx, hf]

/-- C8 (amended): provided no namespace or pod name contains the `/`
separator and the usage entries have pairwise-distinct (namespace, name)
keys, the engine attaches to each container exactly the sample found by
exact (namespace, workload, container) lookup, leaving it absent when no
match exists; extra usage entries are ignored and an empty usage dataset
leaves every result without a sample, with no error. -/
theorem c8_join_exact (pods : List Pod) (ms : List PodMetrics) (threshold : ℚ) (now : Int)
    (hpods : ∀ p ∈ pods, noSlash p.ns ∧ noSlash p.name)
    (hms : ∀ pm ∈ ms, noSlash pm.ns ∧ noSlash pm.name)
    (hnd : (ms.map (fun pm => (pm.ns, pm.name))).Nodup) :
    (AnalyzePods pods ms threshold now).map (fun r => r.currentUsage) =
      pods.flatMap (fun p => p.containers.map
        (fun c => joinLookupSpec ms p.ns p.name c.name)) := by
  simp only [AnalyzePods]
  revert hpods
  induction pods with
  | nil => intro hp; rfl
  | cons p ps ih =>
    intro hp
    simp only [List.flatMap_cons, List.map_append]
    rw [ih (fun q hq => hp q (List.mem_cons_of_mem _ hq))]
    congr 1
    rw [List.map_map]
    apply List.map_congr_left
    intro c hc
    exact lookupUsage_eq_joinSpec ms p c (hp p (List.mem_cons_self _ _)) hms hnd

/-- C8 witness: the theorem applied to the slash-free Scenario B input. -/
theorem c8_join_exact_witness :
    (∀ p ∈ [scenarioBPod], noSlash p.ns ∧ noSlash p.name) ∧
    (∀ pm ∈ [scenarioBMetrics], noSlash pm.ns ∧ noSlash pm.name) ∧
    ([scenarioBMetrics].map (fun pm => (pm.ns, pm.name))).Nodup ∧
    (AnalyzePods [scenarioBPod] [scenarioBMetrics] 1 0).map (fun r => r.currentUsage) =
      [scenarioBPod].flatMap (fun p => p.containers.map
        (fun c => joinLookupSpec [scenarioBMetrics] p.ns p.name c.name)) :=
  ⟨by decide, by decide, by decide,
   c8_join_exact [scenarioBPod] [scenarioBMetrics] 1 0 (by decide) (by decide) (by decide)⟩
